import Mathlib

/-
Verification development for the YouTube channel scraper.

Shallow embedding of the transcript acquisition pipeline and its
checkpointing model, translated from:
  src/transcripts.py  (get_transcript, download_audio, whisper_transcribe,
                       get_whisper_model, get_transcript_with_fallback)
  src/main.py         (load_processed_videos, append_jsonl, scrape_channel)
  src/youtube_api.py  (get_recent_videos)

External effects (the captions service, yt-dlp, the Whisper model, the
filesystem) are modelled as explicit outcome parameters; each Python
function becomes a total Lean function of the video id and the relevant
outcomes, returning its result together with the observable side effects
the claims talk about (seconds slept, scratch-directory state, journal
lines appended).
-/

namespace YTScraper

/-- Python substring test: pat occurs contiguously in s (the in operator). -/
def strContainsSub (s pat : String) : Bool :=
  (s.toList.tails).any (fun t => pat.toList.isPrefixOf t)

/-- Python str.lower, character by character. -/
def strLower (s : String) : String :=
  String.mk (s.toList.map Char.toLower)

/-- Python str.strip: remove whitespace from both ends. -/
def pyStrip (s : String) : String :=
  String.mk (((s.toList.dropWhile Char.isWhitespace).reverse.dropWhile
    Char.isWhitespace).reverse)

/-- A transcript segment as written to the journal (start, duration, text). -/
structure TranscriptSegment where
  start : ℚ
  duration : ℚ
  text : String
deriving DecidableEq, Repr

/-- The transcript_source field of a record. -/
inductive TranscriptSource
  | youtube_captions
  | whisper
  | failed
deriving DecidableEq, Repr

/-- A transcript record; language = none means the language key is absent
from the emitted dictionary, some l means the key is present with value l. -/
structure TranscriptRecord where
  video_id : String
  transcript_source : TranscriptSource
  language : Option String
  segments : List TranscriptSegment
deriving DecidableEq, Repr

/-- Outcome of the captions fetch in src/transcripts.py get_transcript:
either the api.fetch call returns segments (already normalized to the
start, duration, text triples the for loop produces), or it raises one of
the three terminal-absence exception types, or one of the three typed
rate-limit exception types, or some other exception carrying message msg. -/
inductive CaptionOutcome
  | fetched (segments : List TranscriptSegment)
  | terminalAbsence
  | rateLimitTyped
  | otherError (msg : String)
deriving DecidableEq, Repr

/-- The textual rate-limit heuristic on line 101 of src/transcripts.py:
429 in str(e) or Too Many Requests in str(e) or blocked in str(e).lower(). -/
def transientTextMatch (msg : String) : Bool :=
  strContainsSub msg "429" || strContainsSub msg "Too Many Requests" ||
    strContainsSub (strLower msg) "blocked"

/-- Embedding of src/transcripts.py get_transcript. Returns the optional
record together with the number of seconds slept inside the call. -/
def get_transcript (video_id : String) (outcome : CaptionOutcome) :
    Option TranscriptRecord × Nat :=
  match outcome with
  | .fetched segs => (some ⟨video_id, .youtube_captions, none, segs⟩, 0)
  | .terminalAbsence => (none, 0)
  | .rateLimitTyped => (none, 60)
  | .otherError msg => (none, if transientTextMatch msg then 60 else 0)

/-- A native Whisper span: start time, end time, raw text. -/
structure WhisperSpan where
  start : ℚ
  stop : ℚ
  text : String
deriving DecidableEq, Repr

/-- The dictionary model.transcribe returns: native segments plus the
optional language key (absent when the model reports none). -/
structure WhisperResult where
  segments : List WhisperSpan
  language : Option String
deriving DecidableEq, Repr

/-- Outcome of download_audio: a usable file at the expected path, or None
(download raised, or the file is missing after a nominal success). -/
inductive DownloadOutcome
  | ok
  | failure
deriving DecidableEq, Repr

/-- Outcome of model.transcribe: a result dictionary, or an exception. -/
inductive TranscribeOutcome
  | ok (res : WhisperResult)
  | raised
deriving DecidableEq, Repr

/-- Scratch filesystem state left behind by one whisper_transcribe call:
whether the tempfile.mkdtemp directory still exists, and whether the
downloaded audio file inside it still exists. -/
structure ScratchState where
  tempDirExists : Bool
  tempAudioExists : Bool
deriving DecidableEq, Repr

/-- The segment normalization loop of whisper_transcribe: duration is end
minus start and the text is stripped. -/
def formatWhisperSegments (spans : List WhisperSpan) : List TranscriptSegment :=
  spans.map (fun s => ⟨s.start, s.stop - s.start, pyStrip s.text⟩)

/-- The finally block of whisper_transcribe: the cleanup runs only when
temp_audio is set, audio_path is not None, and the file exists; it removes
the file and then the directory. -/
def whisperCleanup (temp_audio : Bool) (audioPathSome : Bool)
    (st : ScratchState) : ScratchState :=
  if temp_audio && audioPathSome && st.tempAudioExists then ⟨false, false⟩ else st

/-- Embedding of src/transcripts.py whisper_transcribe. The audio_path
argument mirrors the Python parameter; the fallback orchestrator always
passes None. Returns the optional record together with the scratch state
after the finally block. -/
def whisper_transcribe (video_id : String) (audio_path : Option String)
    (dl : DownloadOutcome) (trOut : TranscribeOutcome) :
    Option TranscriptRecord × ScratchState :=
  match audio_path with
  | some _ =>
    (match trOut with
     | .raised => none
     | .ok res => some ⟨video_id, .whisper, some (res.language.getD "unknown"),
         formatWhisperSegments res.segments⟩,
     whisperCleanup false true ⟨false, false⟩)
  | none =>
    match dl with
    | .failure =>
      (none, whisperCleanup true false ⟨true, false⟩)
    | .ok =>
      (match trOut with
       | .raised => none
       | .ok res => some ⟨video_id, .whisper, some (res.language.getD "unknown"),
           formatWhisperSegments res.segments⟩,
       whisperCleanup true true ⟨true, true⟩)

/-- The external outcomes relevant to one video: the captions fetch, the
audio download, and the Whisper transcription. -/
structure Env where
  caption : CaptionOutcome
  dl : DownloadOutcome
  trOut : TranscribeOutcome
deriving DecidableEq, Repr

/-- Embedding of src/transcripts.py get_transcript_with_fallback. -/
def get_transcript_with_fallback (video_id : String) (force_whisper : Bool)
    (env : Env) : Option TranscriptRecord × ScratchState :=
  if force_whisper then
    whisper_transcribe video_id none env.dl env.trOut
  else
    match (get_transcript video_id env.caption).1 with
    | some t => (some t, ⟨false, false⟩)
    | none => whisper_transcribe video_id none env.dl env.trOut

/-- One line of a JSONL journal as seen by load_processed_videos: either
json.loads raises (malformed), or it parses but subscripting with video_id
raises (noId), or the line carries a video_id value. -/
inductive JLine
  | malformed
  | noId
  | withId (video_id : String)
deriving DecidableEq, Repr

/-- The video_id a journal line contributes, if any. -/
def lineId : JLine → Option String
  | .withId v => some v
  | _ => none

/-- Embedding of src/main.py load_processed_videos: scan every line, keep
the video_id of each line whose parse and subscript succeed, collect into
a set; any per-line failure is swallowed by the bare except. -/
def load_processed_videos (journal : List JLine) : Finset String :=
  (journal.filterMap lineId).toFinset

/-- json.dumps of a transcript record: a well-formed journal line whose
video_id key holds the record's video_id. -/
def serialize (rec : TranscriptRecord) : JLine :=
  .withId rec.video_id

/-- The per-video transcript lookup in the scrape_channel loop, line 156 of
src/main.py: get_transcript_with_fallback with force_whisper False when
skip_whisper is off, plain get_transcript otherwise. -/
def transcriptOutcome (video_id : String) (skip_whisper : Bool) (env : Env) :
    Option TranscriptRecord :=
  if skip_whisper then (get_transcript video_id env.caption).1
  else (get_transcript_with_fallback video_id false env).1

/-- The terminal failure marker appended on lines 161 to 165 of src/main.py. -/
def failedRecord (video_id : String) : TranscriptRecord :=
  ⟨video_id, .failed, none, []⟩

/-- The record the loop body hands to append_jsonl for one video. -/
def transcriptStep (video_id : String) (skip_whisper : Bool) (env : Env) :
    TranscriptRecord :=
  match transcriptOutcome video_id skip_whisper env with
  | some t => t
  | none => failedRecord video_id

/-- The body of the transcripts loop in scrape_channel, lines 155 to 165 of
src/main.py, acting on the transcripts journal: append the fetched record
when truthy, else append the failure marker. -/
def transcriptLoopBody (journal : List JLine) (video_id : String)
    (skip_whisper : Bool) (env : Env) : List JLine :=
  match transcriptOutcome video_id skip_whisper env with
  | some t => journal ++ [serialize t]
  | none => journal ++ [serialize (failedRecord video_id)]

/-- Per-video external outcomes for a whole channel run, including whether
the metadata batch API returns an item for the id and how many comments
get_all_comments returns for the id. -/
structure ChannelEnv where
  captionOf : String → CaptionOutcome
  dlOf : String → DownloadOutcome
  trOf : String → TranscribeOutcome
  metaOf : String → Bool
  commentsOf : String → Nat

/-- The per-video Env slice of a ChannelEnv. -/
def envFor (cenv : ChannelEnv) (v : String) : Env :=
  ⟨cenv.captionOf v, cenv.dlOf v, cenv.trOf v⟩

/-- The three journals scrape_channel writes. -/
structure Journals where
  videos : List JLine
  transcripts : List JLine
  comments : List JLine
deriving DecidableEq, Repr

/-- The lines the comments stage appends for one video: one line per
comment when get_all_comments returns a non-empty list (each comment
dictionary carries the video_id key), else the single attempt marker. -/
def commentLines (video_id : String) (n : Nat) : List JLine :=
  if n = 0 then [.withId video_id] else List.replicate n (.withId video_id)

/-- The metadata part of scrape_channel, lines 132 and 137 to 144 of
src/main.py: filter out already processed ids, fetch the batch, append one
well-formed line per id the API returned. -/
def metaStage (metaOf : String → Bool) (video_ids : List String)
    (jv : List JLine) : List JLine :=
  jv ++ ((video_ids.filter
      (fun v => !(decide (v ∈ load_processed_videos jv)))).filter metaOf).map
    JLine.withId

/-- The transcripts part of scrape_channel, lines 133 and 150 to 167 of
src/main.py: filter out already processed ids, then run the loop body over
the remainder. -/
def transcriptStage (cenv : ChannelEnv) (video_ids : List String)
    (skip_transcripts skip_whisper : Bool) (jt : List JLine) : List JLine :=
  if skip_transcripts then jt
  else
    (video_ids.filter
      (fun v => !(decide (v ∈ load_processed_videos jt)))).foldl
      (fun jr v => transcriptLoopBody jr v skip_whisper (envFor cenv v)) jt

/-- The comments part of scrape_channel, lines 134 and 172 to 192 of
src/main.py. -/
def commentStage (commentsOf : String → Nat) (video_ids : List String)
    (skip_comments : Bool) (jc : List JLine) : List JLine :=
  if skip_comments then jc
  else
    jc ++ (video_ids.filter
      (fun v => !(decide (v ∈ load_processed_videos jc)))).flatMap
      (fun v => commentLines v (commentsOf v))

/-- Embedding of src/main.py scrape_channel restricted to its journal
effects: each stage reads the pre-run snapshot of its own journal (all
three load_processed_videos calls happen before any append) and appends
only to that journal. -/
def scrape_channel (cenv : ChannelEnv) (video_ids : List String)
    (skip_transcripts skip_comments skip_whisper : Bool) (j : Journals) :
    Journals :=
  ⟨metaStage cenv.metaOf video_ids j.videos,
   transcriptStage cenv video_ids skip_transcripts skip_whisper j.transcripts,
   commentStage cenv.commentsOf video_ids skip_comments j.comments⟩

/-- A loaded Whisper model: the requested size name and the device chosen
at load time. -/
structure WhisperModel where
  name : String
  device : String
deriving DecidableEq, Repr, Inhabited

/-- whisper.load_model with the device picked from cuda availability. -/
def loadModel (cudaAvailable : Bool) (name : String) : WhisperModel :=
  ⟨name, if cudaAvailable then "cuda" else "cpu"⟩

/-- Embedding of src/transcripts.py get_whisper_model acting on the global
_whisper_model cell: returns the new cell value, the returned model, and
whether load_model ran during this call. -/
def get_whisper_model (cudaAvailable : Bool) (cell : Option WhisperModel)
    (model_name : String) : Option WhisperModel × WhisperModel × Bool :=
  match cell with
  | none =>
    let m := loadModel cudaAvailable model_name
    (some m, m, true)
  | some m => (some m, m, false)

/-- A sequence of get_whisper_model calls threaded through the global cell:
returns the final cell, the models returned in order, and the total number
of load_model invocations. -/
def runModelCalls (cudaAvailable : Bool) (cell : Option WhisperModel) :
    List String → Option WhisperModel × List WhisperModel × Nat
  | [] => (cell, [], 0)
  | n :: rest =>
    let r1 := get_whisper_model cudaAvailable cell n
    let r2 := runModelCalls cudaAvailable r1.1 rest
    (r2.1, r1.2.1 :: r2.2.1, (if r1.2.2 then 1 else 0) + r2.2.2)

/-- A Python datetime value: whether it carries timezone info, and its
instant on a common axis. datetime.fromisoformat over a publishedAt string
whose trailing Z was replaced by +00:00 is timezone-aware; datetime.now()
minus a timedelta is naive. -/
structure PyDatetime where
  tzAware : Bool
  value : Int
deriving DecidableEq, Repr

/-- The Python comparison a < b on datetimes: comparing an offset-naive
with an offset-aware datetime raises TypeError, otherwise the instants are
compared. -/
def pyLtDatetime (a b : PyDatetime) : Except Unit Bool :=
  if a.tzAware = b.tzAware then .ok (decide (a.value < b.value)) else .error ()

/-- One playlist item as get_recent_videos reads it: the parsed
publication datetime and the video id. -/
structure PlaylistItem where
  publishedAt : PyDatetime
  videoId : String
deriving DecidableEq, Repr

/-- How one page scan in get_recent_videos ends: an exception escaped the
comparison (propagating to the catch-all handler), the older-than-cutoff
early return fired, or the page was exhausted; each with the ids appended
before that point. -/
inductive ScanResult
  | raised (ids : List String)
  | stopped (ids : List String)
  | finished (ids : List String)
deriving DecidableEq, Repr

/-- The inner for loop of src/youtube_api.py get_recent_videos over one
page: each iteration compares the parsed published_at against cutoff_date
before appending; a TypeError from that comparison aborts the loop. -/
def scanPage (cutoff : PyDatetime) : List PlaylistItem → ScanResult
  | [] => .finished []
  | item :: rest =>
    match pyLtDatetime item.publishedAt cutoff with
    | .error _ => .raised []
    | .ok true => .stopped []
    | .ok false =>
      match scanPage cutoff rest with
      | .raised ids => .raised (item.videoId :: ids)
      | .stopped ids => .stopped (item.videoId :: ids)
      | .finished ids => .finished (item.videoId :: ids)

/-- Embedding of src/youtube_api.py get_recent_videos: pages is the
sequence of item pages the pagination cursor yields. The early return
inside the loop returns the accumulated ids; an exception reaches the
except handler on line 99, which also returns the accumulated ids;
otherwise the while loop continues into the remaining pages. -/
def get_recent_videos (cutoff : PyDatetime) :
    List (List PlaylistItem) → List String
  | [] => []
  | page :: rest =>
    match scanPage cutoff page with
    | .raised ids => ids
    | .stopped ids => ids
    | .finished ids => ids ++ get_recent_videos cutoff rest

/-- Modelled from the claim wording for comparison with the code: an error
text is classified transient when it matches 429, too many requests, or
blocked, each quoted exactly as the claim writes it. -/
def claimTransientTextMatch (msg : String) : Bool :=
  strContainsSub msg "429" || strContainsSub msg "too many requests" ||
    strContainsSub msg "blocked"

/-- Concrete channel environment used by the idempotence witness. -/
def cenvW : ChannelEnv :=
  ⟨fun _ => CaptionOutcome.terminalAbsence, fun _ => DownloadOutcome.failure,
   fun _ => TranscribeOutcome.raised, fun _ => true, fun _ => 0⟩

/-- A journal line contributes id v exactly when it is the withId v line. -/
theorem lineId_eq_some {l : JLine} {v : String} :
    lineId l = some v ↔ l = JLine.withId v := by
  cases l <;> simp [lineId]

/-- Membership in the checkpoint index is exactly the presence of a
well-formed line carrying that id. -/
theorem mem_load_processed (journal : List JLine) (v : String) :
    v ∈ load_processed_videos journal ↔ JLine.withId v ∈ journal := by
  simp [load_processed_videos, List.mem_filterMap, lineId_eq_some]

/-- Loading a journal distributes over append. -/
theorem load_processed_append (a b : List JLine) :
    load_processed_videos (a ++ b)
      = load_processed_videos a ∪ load_processed_videos b := by
  simp [load_processed_videos, List.filterMap_append]

/-- The boolean already-processed test used in the filters. -/
theorem filter_not_mem_iff {P : Finset String} {v : String} :
    (!(decide (v ∈ P))) = true ↔ v ∉ P := by simp

/-- A captions record carries the id it was fetched for. -/
theorem get_transcript_video_id {v : String} {oc : CaptionOutcome}
    {t : TranscriptRecord} (h : (get_transcript v oc).1 = some t) :
    t.video_id = v := by
  cases oc <;> simp_all [get_transcript]
  exact h ▸ rfl

/-- A whisper record carries the id it was transcribed for. -/
theorem whisper_transcribe_video_id {v : String} {ap : Option String}
    {dl : DownloadOutcome} {w : TranscribeOutcome} {t : TranscriptRecord}
    (h : (whisper_transcribe v ap dl w).1 = some t) : t.video_id = v := by
  cases ap <;> cases dl <;> cases w <;>
    simp_all [whisper_transcribe, whisperCleanup] <;> exact h ▸ rfl

/-- A record returned by the fallback orchestrator carries its video id. -/
theorem fallback_video_id {v : String} {fw : Bool} {env : Env}
    {t : TranscriptRecord}
    (h : (get_transcript_with_fallback v fw env).1 = some t) :
    t.video_id = v := by
  cases fw with
  | true =>
    simp only [get_transcript_with_fallback, if_true] at h
    exact whisper_transcribe_video_id h
  | false =>
    rcases hg : (get_transcript v env.caption).1 with _ | t0
    · simp only [get_transcript_with_fallback, Bool.false_eq_true, if_false,
        hg] at h
      exact whisper_transcribe_video_id h
    · simp only [get_transcript_with_fallback, Bool.false_eq_true, if_false,
        hg, Option.some.injEq] at h
      exact h ▸ get_transcript_video_id hg

/-- The record the loop emits for a video carries that video id. -/
theorem transcriptStep_video_id (v : String) (sw : Bool) (env : Env) :
    (transcriptStep v sw env).video_id = v := by
  rcases ho : transcriptOutcome v sw env with _ | t
  · simp [transcriptStep, ho, failedRecord]
  · simp only [transcriptStep, ho]
    cases sw with
    | true =>
      simp only [transcriptOutcome, if_true] at ho
      exact get_transcript_video_id ho
    | false =>
      simp only [transcriptOutcome, Bool.false_eq_true, if_false] at ho
      exact fallback_video_id ho

/-- The loop body appends exactly the serialized step record. -/
theorem transcriptLoopBody_eq (journal : List JLine) (v : String) (sw : Bool)
    (env : Env) :
    transcriptLoopBody journal v sw env
      = journal ++ [serialize (transcriptStep v sw env)] := by
  rcases ho : transcriptOutcome v sw env with _ | t <;>
    simp [transcriptLoopBody, transcriptStep, ho]

/-- The transcripts loop is an append of one serialized record per video. -/
theorem foldl_transcriptLoopBody (sw : Bool) (f : String → Env) :
    ∀ (vs : List String) (journal : List JLine),
      vs.foldl (fun jr v => transcriptLoopBody jr v sw (f v)) journal
        = journal ++ vs.map (fun v => serialize (transcriptStep v sw (f v)))
  | [], journal => by simp
  | v :: rest, journal => by
    simp only [List.foldl_cons, List.map_cons]
    rw [transcriptLoopBody_eq, foldl_transcriptLoopBody sw f rest,
      List.append_assoc]
    rfl

/-- Running the metadata stage twice appends nothing the second time. -/
theorem metaStage_idem (m : String → Bool) (vids : List String)
    (jv : List JLine) :
    metaStage m vids (metaStage m vids jv) = metaStage m vids jv := by
  have hnil :
      ((vids.filter (fun v =>
          !(decide (v ∈ load_processed_videos (metaStage m vids jv))))).filter
        m) = [] := by
    rw [List.filter_eq_nil_iff]
    intro v hv hm
    rw [List.mem_filter] at hv
    obtain ⟨hv1, hv2⟩ := hv
    rw [filter_not_mem_iff] at hv2
    apply hv2
    rw [metaStage, load_processed_append, Finset.mem_union]
    by_cases hjv : v ∈ load_processed_videos jv
    · exact Or.inl hjv
    · refine Or.inr ?_
      rw [mem_load_processed]
      refine List.mem_map_of_mem JLine.withId ?_
      rw [List.mem_filter]
      exact ⟨List.mem_filter.mpr ⟨hv1, filter_not_mem_iff.mpr hjv⟩, hm⟩
  show metaStage m vids jv ++ _ = metaStage m vids jv
  rw [hnil]
  simp

/-- After a transcript stage run, every listed video is checkpointed. -/
theorem mem_load_transcriptStage (cenv : ChannelEnv) (vids : List String)
    (sw : Bool) (jt : List JLine) (v : String) (hv : v ∈ vids) :
    v ∈ load_processed_videos (transcriptStage cenv vids false sw jt) := by
  show v ∈ load_processed_videos
    ((vids.filter (fun v => !(decide (v ∈ load_processed_videos jt)))).foldl
      (fun jr v => transcriptLoopBody jr v sw (envFor cenv v)) jt)
  rw [foldl_transcriptLoopBody, load_processed_append, Finset.mem_union]
  by_cases hjt : v ∈ load_processed_videos jt
  · exact Or.inl hjt
  · refine Or.inr ?_
    rw [mem_load_processed]
    have hmem : v ∈ vids.filter
        (fun v => !(decide (v ∈ load_processed_videos jt))) :=
      List.mem_filter.mpr ⟨hv, filter_not_mem_iff.mpr hjt⟩
    have := List.mem_map_of_mem
      (fun v => serialize (transcriptStep v sw (envFor cenv v))) hmem
    simpa [serialize, transcriptStep_video_id] using this

/-- Running the transcript stage twice appends nothing the second time. -/
theorem transcriptStage_idem (cenv : ChannelEnv) (vids : List String)
    (st sw : Bool) (jt : List JLine) :
    transcriptStage cenv vids st sw (transcriptStage cenv vids st sw jt)
      = transcriptStage cenv vids st sw jt := by
  cases st with
  | true => rfl
  | false =>
    have hnil : (vids.filter (fun v =>
        !(decide (v ∈ load_processed_videos
          (transcriptStage cenv vids false sw jt))))) = [] := by
      rw [List.filter_eq_nil_iff]
      intro v hv
      rw [filter_not_mem_iff]
      exact not_not_intro (mem_load_transcriptStage cenv vids sw jt v hv)
    show (vids.filter (fun v =>
        !(decide (v ∈ load_processed_videos
          (transcriptStage cenv vids false sw jt))))).foldl
        (fun jr v => transcriptLoopBody jr v sw (envFor cenv v))
        (transcriptStage cenv vids false sw jt)
      = transcriptStage cenv vids false sw jt
    rw [hnil]
    rfl

/-- Every video the comments stage visits gets at least one line with its id. -/
theorem withId_mem_commentLines (v : String) (n : Nat) :
    JLine.withId v ∈ commentLines v n := by
  unfold commentLines
  split
  · simp
  · rw [List.mem_replicate]
    exact ⟨by assumption, rfl⟩

/-- After a comments stage run, every listed video is checkpointed. -/
theorem mem_load_commentStage (c : String → Nat) (vids : List String)
    (jc : List JLine) (v : String) (hv : v ∈ vids) :
    v ∈ load_processed_videos (commentStage c vids false jc) := by
  show v ∈ load_processed_videos
    (jc ++ (vids.filter (fun v =>
      !(decide (v ∈ load_processed_videos jc)))).flatMap
      (fun v => commentLines v (c v)))
  rw [load_processed_append, Finset.mem_union]
  by_cases hjc : v ∈ load_processed_videos jc
  · exact Or.inl hjc
  · refine Or.inr ?_
    rw [mem_load_processed, List.mem_flatMap]
    exact ⟨v, List.mem_filter.mpr ⟨hv, filter_not_mem_iff.mpr hjc⟩,
      withId_mem_commentLines v (c v)⟩

/-- Running the comments stage twice appends nothing the second time. -/
theorem commentStage_idem (c : String → Nat) (vids : List String)
    (sc : Bool) (jc : List JLine) :
    commentStage c vids sc (commentStage c vids sc jc)
      = commentStage c vids sc jc := by
  cases sc with
  | true => rfl
  | false =>
    have hnil : (vids.filter (fun v =>
        !(decide (v ∈ load_processed_videos
          (commentStage c vids false jc))))) = [] := by
      rw [List.filter_eq_nil_iff]
      intro v hv
      rw [filter_not_mem_iff]
      exact not_not_intro (mem_load_commentStage c vids jc v hv)
    show commentStage c vids false jc ++ _ = commentStage c vids false jc
    rw [hnil]
    simp

/-- C1: for every video id and every combination of external outcomes, the
transcript pipeline step (fallback orchestrator plus the recording branch
of scrape_channel, with the Whisper fallback enabled) is total, appends
exactly one record carrying that video id to the journal, and when both
the caption path and the Whisper fallback fail the appended record is the
terminal failure record with transcript_source failed and empty segments,
so the video is checkpointed and never retried. -/
theorem C1_exactly_one_record (journal : List JLine) (v : String)
    (env : Env) :
    (∃ rec : TranscriptRecord,
        transcriptLoopBody journal v false env = journal ++ [serialize rec] ∧
        rec.video_id = v) ∧
    ((get_transcript v env.caption).1 = none →
      (whisper_transcribe v none env.dl env.trOut).1 = none →
      transcriptLoopBody journal v false env
        = journal ++ [serialize (failedRecord v)]) := by
  constructor
  · exact ⟨transcriptStep v false env, transcriptLoopBody_eq journal v false env,
      transcriptStep_video_id v false env⟩
  · intro h1 h2
    have hout : transcriptOutcome v false env = none := by
      simp [transcriptOutcome, get_transcript_with_fallback, h1, h2]
    rw [transcriptLoopBody_eq]
    simp [transcriptStep, hout]

/-- C1 witness: with captions terminally absent and the audio download
failing, the loop appends exactly the failure marker for abc123. -/
theorem C1_exactly_one_record_witness :
    transcriptLoopBody [] "abc123" false
        ⟨CaptionOutcome.terminalAbsence, DownloadOutcome.failure,
          TranscribeOutcome.raised⟩
      = [] ++ [serialize (failedRecord "abc123")] :=
  (C1_exactly_one_record [] "abc123"
    ⟨CaptionOutcome.terminalAbsence, DownloadOutcome.failure,
      TranscribeOutcome.raised⟩).2 rfl rfl

/-- C2 counterexample: when the captions service succeeds with an empty
segment list, the appended record has transcript_source youtube_captions
and empty segments, so an empty segments sequence does not imply a failed
record and the claimed iff is false on the code. -/
theorem C2_counterexample :
    (transcriptStep "vidA" false
        ⟨CaptionOutcome.fetched [], DownloadOutcome.failure,
          TranscribeOutcome.raised⟩).transcript_source
      ≠ TranscriptSource.failed ∧
    (transcriptStep "vidA" false
        ⟨CaptionOutcome.fetched [], DownloadOutcome.failure,
          TranscribeOutcome.raised⟩).segments = [] :=
  ⟨by decide, rfl⟩

/-- C2 (amended): the failed direction holds unconditionally, and assuming
every successful caption fetch and every successful transcription returns
at least one segment, the record appended for a video has empty segments
exactly when its transcript_source is failed. -/
theorem C2_amended_segments_iff (v : String) (sw : Bool) (env : Env)
    (hcap : ∀ segs, env.caption = CaptionOutcome.fetched segs → segs ≠ [])
    (hwr : ∀ res, env.trOut = TranscribeOutcome.ok res → res.segments ≠ []) :
    ((transcriptStep v sw env).segments = []
      ↔ (transcriptStep v sw env).transcript_source = TranscriptSource.failed) := by
  obtain ⟨c, dl, w⟩ := env
  cases sw <;> cases c <;> cases dl <;> cases w <;>
    simp_all [transcriptStep, transcriptOutcome, get_transcript,
      get_transcript_with_fallback, whisper_transcribe, failedRecord,
      formatWhisperSegments, whisperCleanup]

/-- C2 witness: a fully failing environment, where both assumptions hold
vacuously and the failure record satisfies the iff. -/
theorem C2_amended_segments_iff_witness :
    ((transcriptStep "vidB2" false
        ⟨CaptionOutcome.terminalAbsence, DownloadOutcome.failure,
          TranscribeOutcome.raised⟩).segments = []
      ↔ (transcriptStep "vidB2" false
        ⟨CaptionOutcome.terminalAbsence, DownloadOutcome.failure,
          TranscribeOutcome.raised⟩).transcript_source
          = TranscriptSource.failed) :=
  C2_amended_segments_iff "vidB2" false
    ⟨CaptionOutcome.terminalAbsence, DownloadOutcome.failure,
      TranscribeOutcome.raised⟩
    (fun _ h => nomatch h) (fun _ h => nomatch h)

/-- C3: running scrape_channel a second time against the journals produced
by a first run over the same video list and the same external outcomes
appends zero new lines to any of the three journals, and, when the
transcript stage is enabled, every listed video id is in the checkpoint
index after the first run, so it is filtered out on the second run. -/
theorem C3_pipeline_idempotent (cenv : ChannelEnv) (vids : List String)
    (st sc sw : Bool) (j : Journals) :
    scrape_channel cenv vids st sc sw (scrape_channel cenv vids st sc sw j)
      = scrape_channel cenv vids st sc sw j ∧
    (st = false → ∀ v ∈ vids,
      v ∈ load_processed_videos
        (scrape_channel cenv vids st sc sw j).transcripts) := by
  constructor
  · show Journals.mk _ _ _ = Journals.mk _ _ _
    rw [Journals.mk.injEq]
    refine ⟨?_, ?_, ?_⟩
    · exact metaStage_idem cenv.metaOf vids j.videos
    · exact transcriptStage_idem cenv vids st sw j.transcripts
    · exact commentStage_idem cenv.commentsOf vids sc j.comments
  · intro hst v hv
    subst hst
    exact mem_load_transcriptStage cenv vids sw j.transcripts v hv

/-- C3 witness: one video, empty journals, all stages enabled; the second
run changes nothing and the video is checkpointed after the first run. -/
theorem C3_pipeline_idempotent_witness :
    scrape_channel cenvW ["v"] false false false
        (scrape_channel cenvW ["v"] false false false ⟨[], [], []⟩)
      = scrape_channel cenvW ["v"] false false false ⟨[], [], []⟩ ∧
    "v" ∈ load_processed_videos
        (scrape_channel cenvW ["v"] false false false ⟨[], [], []⟩).transcripts :=
  ⟨(C3_pipeline_idempotent cenvW ["v"] false false false ⟨[], [], []⟩).1,
   (C3_pipeline_idempotent cenvW ["v"] false false false ⟨[], [], []⟩).2 rfl
     "v" (by simp)⟩

/-- C4 (code bug evaluation): on the audio-download-failure exit path the
fallback returns None but the scratch directory created by mkdtemp still
exists after the finally block, because the cleanup is guarded by
audio_path being set and audio_path is None on this path; the claimed
deletion on every exit path fails here. -/
theorem C4_scratch_dir_leak :
    whisper_transcribe "vidC" none DownloadOutcome.failure
        TranscribeOutcome.raised
      = (none, ⟨true, false⟩) ∧
    (whisper_transcribe "vidC" none DownloadOutcome.failure
        TranscribeOutcome.raised).2.tempDirExists = true :=
  ⟨rfl, rfl⟩

/-- C5 counterexample: the error text too many requests in lower case is
classified transient by the claim wording, yet the code sleeps zero
seconds on it, because the code matches the phrase Too Many Requests
case-sensitively. -/
theorem C5_counterexample :
    claimTransientTextMatch "too many requests" = true ∧
    (get_transcript "vidD"
      (CaptionOutcome.otherError "too many requests")).2 = 0 :=
  ⟨by decide, by decide⟩

/-- C5 (amended): for a typed rate-limit exception, or an unrecognized
error whose text contains 429, the exact case-sensitive phrase Too Many
Requests, or blocked case-insensitively, the fetcher sleeps exactly 60
seconds; and no call of the fetcher ever sleeps more than 60 seconds, so
the cooldown is never compounded. -/
theorem C5_amended_cooldown (v : String) (outcome : CaptionOutcome) :
    ((outcome = CaptionOutcome.rateLimitTyped ∨
        ∃ msg, outcome = CaptionOutcome.otherError msg ∧
          transientTextMatch msg = true) →
      (get_transcript v outcome).2 = 60) ∧
    (get_transcript v outcome).2 ≤ 60 := by
  cases outcome with
  | fetched segs =>
    exact ⟨(by rintro (h | ⟨msg, h, _⟩) <;> cases h), by simp [get_transcript]⟩
  | terminalAbsence =>
    exact ⟨(by rintro (h | ⟨msg, h, _⟩) <;> cases h), by simp [get_transcript]⟩
  | rateLimitTyped =>
    exact ⟨fun _ => rfl, by simp [get_transcript]⟩
  | otherError msg =>
    constructor
    · rintro (h | ⟨m, hm, ht⟩)
      · cases h
      · cases hm
        simp [get_transcript, ht]
    · cases h : transientTextMatch msg <;> simp [get_transcript, h]

/-- C5 witness: a typed rate-limit outcome sleeps exactly 60 seconds and
no more. -/
theorem C5_amended_cooldown_witness :
    (get_transcript "vidE" CaptionOutcome.rateLimitTyped).2 = 60 ∧
    (get_transcript "vidE" CaptionOutcome.rateLimitTyped).2 ≤ 60 :=
  ⟨(C5_amended_cooldown "vidE" CaptionOutcome.rateLimitTyped).1 (Or.inl rfl),
   (C5_amended_cooldown "vidE" CaptionOutcome.rateLimitTyped).2⟩

/-- C6: for every journal content, the checkpoint loader returns exactly
the set of video_id values of the well-formed lines: an id is in the
returned set exactly when some well-formed line carries it, so every
malformed or id-less line is skipped, and the loader is a total function,
never raising however many lines are malformed. -/
theorem C6_load_processed_exact (journal : List JLine) (v : String) :
    v ∈ load_processed_videos journal ↔ JLine.withId v ∈ journal :=
  mem_load_processed journal v

/-- C6 witness: a journal with a malformed line, a well-formed line, and a
line without a video_id key yields exactly the one id. -/
theorem C6_load_processed_exact_witness :
    ("v6" ∈ load_processed_videos
        [JLine.malformed, JLine.withId "v6", JLine.noId]
      ↔ JLine.withId "v6"
        ∈ [JLine.malformed, JLine.withId "v6", JLine.noId]) :=
  C6_load_processed_exact [JLine.malformed, JLine.withId "v6", JLine.noId] "v6"

/-- C7: with no captions, a successful download, and a single native span
with start 0, end 5/2 and text space hello space, the resulting record has
transcript_source whisper and the single segment with start 0, duration
5/2 and stripped text hello. -/
theorem C7_whisper_scenario :
    transcriptStep "xyz789" false
        ⟨CaptionOutcome.terminalAbsence, DownloadOutcome.ok,
          TranscribeOutcome.ok ⟨[⟨0, 5/2, " hello "⟩], some "en"⟩⟩
      = ⟨"xyz789", TranscriptSource.whisper, some "en",
          [⟨0, 5/2, "hello"⟩]⟩ := by
  have hstrip : pyStrip " hello " = "hello" := rfl
  simp [transcriptStep, transcriptOutcome, get_transcript_with_fallback,
    get_transcript, whisper_transcribe, whisperCleanup,
    formatWhisperSegments, hstrip]

/-- C8 (code bug evaluation): the source parses every publishedAt with its
trailing Z replaced by +00:00, so the parsed datetime is timezone-aware,
while cutoff_date on line 66 is naive; the very first comparison on line
84 therefore raises TypeError before any id is appended, the catch-all
except on line 99 swallows it and returns the accumulated list, and so for
every cutoff produced by the source and every page sequence whose items
are aware, discovery returns the empty list whenever any page is reached,
never the claimed prefix of ids newer than the cutoff. -/
theorem C8_discovery_returns_nothing (cutoff : PyDatetime)
    (hc : cutoff.tzAware = false) (pages : List (List PlaylistItem))
    (hp : ∀ page ∈ pages, ∀ item ∈ page, item.publishedAt.tzAware = true) :
    get_recent_videos cutoff pages = [] := by
  induction pages with
  | nil => rfl
  | cons page rest ih =>
    cases page with
    | nil =>
      show ([] : List String) ++ get_recent_videos cutoff rest = []
      rw [List.nil_append]
      exact ih (fun pg hpg item hi => hp pg (List.mem_cons_of_mem _ hpg) item hi)
    | cons item restItems =>
      have ha : item.publishedAt.tzAware = true :=
        hp (item :: restItems) (List.mem_cons_self _ _) item
          (List.mem_cons_self _ _)
      simp [get_recent_videos, scanPage, pyLtDatetime, ha, hc]

/-- C8 witness: a naive cutoff against one page of two aware items, both
newer than the cutoff instant, still yields the empty id list. -/
theorem C8_discovery_returns_nothing_witness :
    get_recent_videos ⟨false, 100⟩
        [[⟨⟨true, 200⟩, "vid1"⟩, ⟨⟨true, 150⟩, "vid2"⟩]] = [] :=
  C8_discovery_returns_nothing ⟨false, 100⟩ rfl
    [[⟨⟨true, 200⟩, "vid1"⟩, ⟨⟨true, 150⟩, "vid2"⟩]] (by decide)

/-- Once the model cell is populated, further calls return the cached
model and never load. -/
theorem runModelCalls_loaded (cuda : Bool) (m : WhisperModel) :
    ∀ ns : List String, runModelCalls cuda (some m) ns
      = (some m, List.replicate ns.length m, 0)
  | [] => rfl
  | n :: rest => by
    simp [runModelCalls, get_whisper_model, runModelCalls_loaded cuda m rest,
      List.replicate_succ]

/-- C9: starting from an empty cell, a non-empty sequence of
get_whisper_model calls loads the model exactly once, with the model name
of the first call, and every call returns that same instance, whatever
model names the later calls pass. -/
theorem C9_model_singleton (cuda : Bool) (nameFirst : String)
    (rest : List String) :
    (∀ m ∈ (runModelCalls cuda none (nameFirst :: rest)).2.1,
        m = loadModel cuda nameFirst) ∧
    (runModelCalls cuda none (nameFirst :: rest)).2.2 = 1 := by
  have h : runModelCalls cuda none (nameFirst :: rest)
      = (some (loadModel cuda nameFirst),
         loadModel cuda nameFirst
           :: List.replicate rest.length (loadModel cuda nameFirst),
         1) := by
    simp [runModelCalls, get_whisper_model, runModelCalls_loaded]
  rw [h]
  refine ⟨?_, rfl⟩
  intro m hm
  rcases List.mem_cons.mp hm with h1 | h1
  · exact h1
  · exact List.eq_of_mem_replicate h1

/-- C9 witness: two calls with different names load once and the first
returned model is the one loaded for the first name. -/
theorem C9_model_singleton_witness :
    (runModelCalls true none ["base", "small"]).2.2 = 1 ∧
    (runModelCalls true none ["base", "small"]).2.1.headI
      = loadModel true "base" :=
  ⟨(C9_model_singleton true "base" ["small"]).2,
   (C9_model_singleton true "base" ["small"]).1
     (runModelCalls true none ["base", "small"]).2.1.headI (by decide)⟩

/-- A record returned by the caption path has no language key and source
youtube_captions. -/
theorem caption_record_language {v : String} {oc : CaptionOutcome}
    {rec : TranscriptRecord} (h : (get_transcript v oc).1 = some rec) :
    rec.language = none ∧
    rec.transcript_source = TranscriptSource.youtube_captions := by
  cases oc <;> simp_all [get_transcript]
  exact ⟨h ▸ rfl, h ▸ rfl⟩

/-- A record returned by the Whisper path always has a language key and
source whisper. -/
theorem whisper_record_language {v : String} {ap : Option String}
    {dl : DownloadOutcome} {w : TranscribeOutcome} {rec : TranscriptRecord}
    (h : (whisper_transcribe v ap dl w).1 = some rec) :
    rec.language.isSome = true ∧
    rec.transcript_source = TranscriptSource.whisper := by
  cases ap <;> cases dl <;> cases w <;>
    simp_all [whisper_transcribe, whisperCleanup] <;> exact ⟨h ▸ rfl, h ▸ rfl⟩

/-- When the model reports no language, the Whisper record defaults the
language key to unknown. -/
theorem whisper_record_language_default {v : String} {ap : Option String}
    {dl : DownloadOutcome} {res : WhisperResult} {rec : TranscriptRecord}
    (h : (whisper_transcribe v ap dl (TranscribeOutcome.ok res)).1 = some rec)
    (hl : res.language = none) : rec.language = some "unknown" := by
  cases ap <;> cases dl <;>
    simp_all [whisper_transcribe, whisperCleanup] <;>
    simp [← h, hl]

/-- C10: a record produced by the caption path never carries a language
key, every record produced by the Whisper path carries one, defaulting to
unknown when the model reports none, and for any successful record from
either path the language key is present exactly when the source is
whisper. -/
theorem C10_language_key (v : String) (oc : CaptionOutcome)
    (ap : Option String) (dl : DownloadOutcome) (w : TranscribeOutcome) :
    (∀ rec : TranscriptRecord, (get_transcript v oc).1 = some rec →
        rec.language = none ∧
        rec.transcript_source = TranscriptSource.youtube_captions) ∧
    (∀ rec : TranscriptRecord, (whisper_transcribe v ap dl w).1 = some rec →
        rec.language.isSome = true ∧
        rec.transcript_source = TranscriptSource.whisper) ∧
    (∀ res : WhisperResult, w = TranscribeOutcome.ok res →
        res.language = none →
        ∀ rec : TranscriptRecord,
          (whisper_transcribe v ap dl w).1 = some rec →
          rec.language = some "unknown") ∧
    (∀ rec : TranscriptRecord,
        ((get_transcript v oc).1 = some rec ∨
          (whisper_transcribe v ap dl w).1 = some rec) →
        (rec.language.isSome = true
          ↔ rec.transcript_source = TranscriptSource.whisper)) := by
  refine ⟨fun rec h => caption_record_language h,
    fun rec h => whisper_record_language h,
    fun res hw hl rec h => whisper_record_language_default (hw ▸ h) hl,
    fun rec h => ?_⟩
  rcases h with h | h
  · obtain ⟨h1, h2⟩ := caption_record_language h
    rw [h1, h2]
    simp
  · obtain ⟨h1, h2⟩ := whisper_record_language h
    rw [h1, h2]
    simp

/-- C10 witness: a concrete caption record has no language key, and a
concrete Whisper record with no reported language defaults to unknown. -/
theorem C10_language_key_witness :
    ((⟨"w10", TranscriptSource.youtube_captions, none, []⟩ :
        TranscriptRecord).language = none ∧
      (⟨"w10", TranscriptSource.youtube_captions, none, []⟩ :
        TranscriptRecord).transcript_source
        = TranscriptSource.youtube_captions) ∧
    (⟨"w10", TranscriptSource.whisper, some "unknown", []⟩ :
      TranscriptRecord).language = some "unknown" :=
  ⟨(C10_language_key "w10" (CaptionOutcome.fetched []) none
      DownloadOutcome.ok (TranscribeOutcome.ok ⟨[], none⟩)).1
      ⟨"w10", TranscriptSource.youtube_captions, none, []⟩ rfl,
   (C10_language_key "w10" (CaptionOutcome.fetched []) none
      DownloadOutcome.ok (TranscribeOutcome.ok ⟨[], none⟩)).2.2.1
      ⟨[], none⟩ rfl rfl
      ⟨"w10", TranscriptSource.whisper, some "unknown", []⟩ rfl⟩

end YTScraper
